import Mathlib

/-!
Shallow embedding of the controller orchestration engine of
`src/controller/controller.ts` (zigbee-herdsman): the device-join/interview
state machine, the incoming-frame classification and dispatch pipeline,
the default-response obligation, and the permit-join admission loop.

The adapter, database, frame codec (`ZclFrameConverter`), ZCL foundation
table, `CommandsLookup` and the `Device`/`Group` entity classes live outside
`src/`; they are consumed through explicit actions in a trace, or modelled
from the spec where their behaviour decides a claim (each such definition is
marked `Modelled from the spec:`).  Machine effects — event-bus emissions,
adapter commands, database writes — are recorded as an explicit `Action`
list returned by each handler, so temporal claims become claims about the
order and content of that list.
-/

namespace Herdsman

/-- A JS key-value record (`KeyValue` in `tstype`), as an association list. -/
def KeyValue : Type := List (String × String)

instance : DecidableEq KeyValue := by
  unfold KeyValue
  infer_instance

/-- Field access `kv.k` on a JS record: `none` models `undefined`. -/
def getKV (kv : KeyValue) (k : String) : Option String :=
  (kv.find? (fun p => p.1 == k)).map (fun p => p.2)

/-- JS truthiness of an optional string field: `undefined` and the empty
string are falsy, every other string is truthy. -/
def truthyStr : Option String → Bool
  | none => false
  | some s => !(s == "")

/-- `FrameType` of the ZCL header frame control (external `zcl` module):
global (profile-wide) or cluster-specific commands. -/
inductive FrameType
  | GLOBAL
  | SPECIFIC
deriving DecidableEq

/-- `frameControl` part of a ZCL header. -/
structure FrameControl where
  frameType : FrameType
  disableDefaultResponse : Bool
deriving DecidableEq

/-- ZCL frame header (`zclData.frame.Header`). -/
structure ZclHeader where
  frameControl : FrameControl
  commandIdentifier : Nat
deriving DecidableEq

/-- What `frame.getCommand()` resolves: the command record with its symbolic
name and numeric ID. -/
structure ZclCommand where
  name : String
  ID : Nat
deriving DecidableEq

/-- A decoded ZCL frame as the controller consumes it.  `Payload` is the
frame body used as-is for cluster-specific commands; `attributes` carries
the flattened attribute-name→value mapping that the external
`ZclFrameConverter.attributeList` extracts from the body of a global
report / read-response frame. -/
structure ZclFrame where
  Header : ZclHeader
  ClusterID : Nat
  Payload : KeyValue
  command : ZclCommand
  attributes : KeyValue
deriving DecidableEq

/-- `frame.getCommand()`. -/
def ZclFrame.getCommand (f : ZclFrame) : ZclCommand := f.command

/-- Modelled from the spec: `ZclFrameConverter.attributeList` (in `helpers`,
outside `src/`) extracts the flattened attribute-id→value mapping from the
frame body; the decoded frame carries that mapping as its `attributes`
field. -/
def ZclFrameConverter.attributeList (f : ZclFrame) : KeyValue := f.attributes

/-- A member of the external ZCL foundation command table. -/
structure FoundationCommand where
  ID : Nat
deriving DecidableEq

namespace Foundation

/-- Modelled from the spec: the well-known global "report" command of the
external `zcl` foundation table (`Foundation.report`). -/
def report : FoundationCommand := ⟨10⟩

/-- Modelled from the spec: the well-known global "read-response" command of
the external `zcl` foundation table (`Foundation.readRsp`). -/
def readRsp : FoundationCommand := ⟨1⟩

end Foundation

/-- Modelled from the spec: the fixed command-name→kind lookup table
`CommandsLookup` (in `events`, outside `src/`); a closed map from
cluster-specific command names to message kinds. -/
def CommandsLookupTable : List (String × String) :=
  [("on", "commandOn"), ("offWithEffect", "commandOffWithEffect"),
   ("off", "commandOff"), ("toggle", "commandToggle")]

/-- `CommandsLookup[name]`: `none` models `undefined` (name absent). -/
def CommandsLookup (name : String) : Option String :=
  (CommandsLookupTable.find? (fun p => p.1 == name)).map (fun p => p.2)

/-- A persisted device record (the `Device` entity's stored fields that the
controller reads and writes). -/
structure DeviceRec where
  dtype : Option String
  ieeeAddr : String
  networkAddress : Nat
  manufacturerID : Option Nat
  modelID : Option String
  interviewed : Bool
  endpoints : List Nat
deriving DecidableEq

/-- `device.getEndpoint(id)`: the endpoint with that id, if present. -/
def DeviceRec.getEndpoint (d : DeviceRec) (id : Nat) : Option Nat :=
  d.endpoints.find? (fun e => e == id)

/-- Interview event statuses (`DeviceInterviewPayload.status`). -/
inductive InterviewStatus
  | started
  | successful
  | failed
  | alreadyInProgress
deriving DecidableEq

/-- Events published on the controller's event bus (`Events` in `events`). -/
inductive Event
  | deviceJoined (ieeeAddr : String)
  | deviceInterview (status : InterviewStatus) (ieeeAddr : String)
  | deviceAnnounce (device : Option DeviceRec)
  | message (mtype : String) (ieeeAddr : String) (endpoint : Nat)
      (data : KeyValue) (linkquality : Nat) (groupID : Option Nat)
  | adapterDisconnected
deriving DecidableEq

/-- Commands issued to the external adapter / network. -/
inductive AdapterCall
  | permitJoin (seconds : Nat)
  | defaultResponse (networkAddress : Nat) (endpoint : Nat)
      (commandID : Nat) (status : Nat) (clusterID : Nat)
  | groupCommand (groupID : Nat) (cluster : String) (command : String)
deriving DecidableEq

/-- Writes against the external repository (database). -/
inductive DbWrite
  | createDevice (ieeeAddr : String)
  | setNetworkAddress (ieeeAddr : String) (networkAddress : Nat)
  | setModelID (ieeeAddr : String) (modelID : String)
  | createEndpoint (ieeeAddr : String) (endpoint : Nat)
  | setInterviewed (ieeeAddr : String)
  | createGroup (groupID : Nat)
deriving DecidableEq

/-- One observable effect of a handler, in program order. -/
inductive Action
  | emit (e : Event)
  | call (c : AdapterCall)
  | write (w : DbWrite)
deriving DecidableEq

/-- The armed permit-join renewal timer (`this.permitJoinTimer`): the
`setInterval` handle with its period in milliseconds. -/
structure PermitTimer where
  intervalMs : Nat
deriving DecidableEq

/-- The controller's state: the repository contents it manipulates
(devices, groups), the set of interview sessions currently running
(the spec's transient per-device Interview Session marker, owned by the
`Device` entity outside `src/`), and the permit-join timer field. -/
structure CtrlState where
  devices : List DeviceRec
  groups : List Nat
  interviewsInProgress : List String
  permitJoinTimer : Option PermitTimer
deriving DecidableEq

/-- The state of a freshly constructed controller. -/
def initialState : CtrlState :=
  { devices := [], groups := [], interviewsInProgress := [], permitJoinTimer := none }

/-- `Device.findByIeeeAddr`. -/
def findByIeeeAddr (s : CtrlState) (a : String) : Option DeviceRec :=
  s.devices.find? (fun d => d.ieeeAddr == a)

/-- `Device.findByNetworkAddress`. -/
def findByNetworkAddress (s : CtrlState) (n : Nat) : Option DeviceRec :=
  s.devices.find? (fun d => d.networkAddress == n)

/-- `Device.findByType`. -/
def findByType (s : CtrlState) (t : String) : List DeviceRec :=
  s.devices.filter (fun d => d.dtype == some t)

/-- Apply `f` to the stored device with hardware address `a`. -/
def updateDeviceRec (s : CtrlState) (a : String) (f : DeviceRec → DeviceRec) : CtrlState :=
  { s with devices := s.devices.map (fun d => if d.ieeeAddr == a then f d else d) }

/-- `device.set('networkAddress', n)`. -/
def setNetworkAddress (s : CtrlState) (a : String) (n : Nat) : CtrlState :=
  updateDeviceRec s a (fun d => { d with networkAddress := n })

/-- `device.set('modelID', m)`. -/
def setModelID (s : CtrlState) (a : String) (m : String) : CtrlState :=
  updateDeviceRec s a (fun d => { d with modelID := some m })

/-- `device.createEndpoint(id)`. -/
def createEndpoint (s : CtrlState) (a : String) (id : Nat) : CtrlState :=
  updateDeviceRec s a (fun d => { d with endpoints := d.endpoints ++ [id] })

/-- Mark the device interviewed (done by the entity on interview success). -/
def setInterviewed (s : CtrlState) (a : String) : CtrlState :=
  updateDeviceRec s a (fun d => { d with interviewed := true })

/-- The adapter's `deviceJoined` payload. -/
structure DeviceJoinedPayload where
  ieeeAddr : String
  networkAddress : Nat
deriving DecidableEq

/-- The adapter's `zclData` payload. -/
structure ZclDataPayload where
  networkAddress : Nat
  endpoint : Nat
  frame : ZclFrame
  linkquality : Nat
  groupID : Option Nat
deriving DecidableEq

/-- Modelled from the spec: `device.interview()` of the `Device` entity
(outside `src/`) — the transient Interview Session marker prevents two
concurrent interviews of the same device.  If a session for this device is
already running, the call resolves immediately with `alreadyInProgress` and
nothing else happens; otherwise a session is opened (it resolves later, see
`onInterviewComplete`). -/
def deviceInterviewCall (s : CtrlState) (a : String) :
    CtrlState × InterviewStatus :=
  if a ∈ s.interviewsInProgress then
    (s, InterviewStatus.alreadyInProgress)
  else
    ({ s with interviewsInProgress := s.interviewsInProgress ++ [a] },
     InterviewStatus.started)

/-- The interview part of `Controller.onDeviceJoined`: if the device is not
yet interviewed, a `deviceInterview started` event is emitted, then
`device.interview()` is awaited.  When it returns `alreadyInProgress` no
finished event is emitted; otherwise the handler suspends and the finished
event is emitted when the interview resolves (`onInterviewComplete`). -/
def interviewPart (s : CtrlState) (d : DeviceRec) (acc : List Action) :
    CtrlState × List Action :=
  if d.interviewed then
    (s, acc)
  else
    ((deviceInterviewCall s d.ieeeAddr).1,
     acc ++ [Action.emit (Event.deviceInterview InterviewStatus.started d.ieeeAddr)])

/-- `Controller.onDeviceJoined` up to its suspension point: lookup or
create the device, update a changed network address, then start (or skip)
the interview. -/
def onDeviceJoined (s : CtrlState) (payload : DeviceJoinedPayload) :
    CtrlState × List Action :=
  match findByIeeeAddr s payload.ieeeAddr with
  | none =>
    let device : DeviceRec :=
      { dtype := none, ieeeAddr := payload.ieeeAddr,
        networkAddress := payload.networkAddress, manufacturerID := none,
        modelID := none, interviewed := false, endpoints := [] }
    let s := { s with devices := s.devices ++ [device] }
    interviewPart s device
      [Action.write (DbWrite.createDevice payload.ieeeAddr),
       Action.emit (Event.deviceJoined payload.ieeeAddr)]
  | some device =>
    if device.networkAddress == payload.networkAddress then
      interviewPart s device []
    else
      let s := setNetworkAddress s payload.ieeeAddr payload.networkAddress
      interviewPart s { device with networkAddress := payload.networkAddress }
        [Action.write (DbWrite.setNetworkAddress payload.ieeeAddr payload.networkAddress)]

/-- The continuation of `Controller.onDeviceJoined` after
`await device.interview()` resolves for a session that actually ran: the
entity records the outcome and the controller emits the finished event
(`status !== 'alreadyInProgress'`, so the emit is unconditional here). -/
def onInterviewComplete (s : CtrlState) (a : String) (success : Bool) :
    CtrlState × List Action :=
  if a ∈ s.interviewsInProgress then
    let s := { s with interviewsInProgress := s.interviewsInProgress.filter (fun b => !(b == a)) }
    if success then
      (setInterviewed s a,
       [Action.write (DbWrite.setInterviewed a),
        Action.emit (Event.deviceInterview InterviewStatus.successful a)])
    else
      (s, [Action.emit (Event.deviceInterview InterviewStatus.failed a)])
  else
    (s, [])

/-- `Controller.onDeviceAnnounce`: look the device up by hardware address
and emit `deviceAnnounce` with the lookup result (possibly null). -/
def onDeviceAnnounce (s : CtrlState) (ieeeAddr : String) : CtrlState × List Action :=
  (s, [Action.emit (Event.deviceAnnounce (findByIeeeAddr s ieeeAddr))])

/-- The outcome of awaiting `endpoint.defaultResponse(...)`: `sendFails`
says the send was rejected (device unreachable, adapter error). -/
def defaultResponseAttempt (sendFails : Bool) : Except Unit Unit :=
  if sendFails then Except.error () else Except.ok ()

/-- The frame classification of `Controller.onZclData` (its
`type` / `data` assignment): `none` models `type` left `undefined`. -/
def classify (f : ZclFrame) : Option (String × KeyValue) :=
  if f.Header.frameControl.frameType == FrameType.GLOBAL then
    if f.Header.commandIdentifier == Foundation.report.ID then
      some ("attributeReport", ZclFrameConverter.attributeList f)
    else if f.Header.commandIdentifier == Foundation.readRsp.ID then
      some ("readResponse", ZclFrameConverter.attributeList f)
    else
      none
  else if f.Header.frameControl.frameType == FrameType.SPECIFIC then
    match CommandsLookup f.command.name with
    | some k => some (k, f.Payload)
    | none => none
  else
    none

/-- The model-id backfill of `Controller.onZclData`:
`(type === 'readResponse' || type === 'attributeReport') && data.modelId &&
!device.get('modelID')` persists `data.modelId`. -/
def modelIdBackfill (s : CtrlState) (device : DeviceRec)
    (cls : Option (String × KeyValue)) : CtrlState × List Action :=
  match cls with
  | none => (s, [])
  | some (t, data) =>
    match getKV data "modelId" with
    | none => (s, [])
    | some m =>
      if ((t == "readResponse") || (t == "attributeReport")) && !(m == "")
          && !(truthyStr device.modelID) then
        (setModelID s device.ieeeAddr m,
         [Action.write (DbWrite.setModelID device.ieeeAddr m)])
      else
        (s, [])

/-- The endpoint-resolution step of `Controller.onZclData`
(`device.getEndpoint(...)` / `device.createEndpoint(...)`): the state after
the lazy endpoint creation. -/
def zclEndpointState (s : CtrlState) (device : DeviceRec) (z : ZclDataPayload) : CtrlState :=
  match device.getEndpoint z.endpoint with
  | some _ => s
  | none => createEndpoint s device.ieeeAddr z.endpoint

/-- The repository write recorded by the lazy endpoint creation. -/
def zclEndpointActs (device : DeviceRec) (z : ZclDataPayload) : List Action :=
  match device.getEndpoint z.endpoint with
  | some _ => []
  | none => [Action.write (DbWrite.createEndpoint device.ieeeAddr z.endpoint)]

/-- The message publication of `Controller.onZclData` (`if (type) emit`). -/
def zclEmitActs (device : DeviceRec) (z : ZclDataPayload) : List Action :=
  match classify z.frame with
  | some (t, data) =>
    [Action.emit (Event.message t device.ieeeAddr z.endpoint data
      z.linkquality z.groupID)]
  | none => []

/-- The default-response step of `Controller.onZclData`: skipped when the
header disables default-response; otherwise the send is attempted, and a
rejection is caught (`debug.error` only). -/
def zclRespActs (z : ZclDataPayload) (sendFails : Bool) : List Action :=
  if z.frame.Header.frameControl.disableDefaultResponse then
    []
  else
    match defaultResponseAttempt sendFails with
    | Except.ok _ =>
      [Action.call (AdapterCall.defaultResponse z.networkAddress z.endpoint
        z.frame.getCommand.ID 0 z.frame.ClusterID)]
    | Except.error _ =>
      [Action.call (AdapterCall.defaultResponse z.networkAddress z.endpoint
        z.frame.getCommand.ID 0 z.frame.ClusterID)]

/-- `Controller.onZclData`: resolve the device (drop if unknown), lazily
create the endpoint, classify the frame, backfill the model id, publish the
message event, then attempt the default response unless the header disables
it. -/
def onZclData (s : CtrlState) (z : ZclDataPayload) (sendFails : Bool) :
    CtrlState × List Action :=
  match findByNetworkAddress s z.networkAddress with
  | none => (s, [])
  | some device =>
    ((modelIdBackfill (zclEndpointState s device z) device (classify z.frame)).1,
     zclEndpointActs device z
       ++ (modelIdBackfill (zclEndpointState s device z) device (classify z.frame)).2
       ++ zclEmitActs device z
       ++ zclRespActs z sendFails)

/-- `Controller.permitJoin`: arm the 254-second permit with a 200·1000 ms
renewal interval when disabled, no-op when already enabled, and on disable
issue `permitJoin(0)` and clear the timer. -/
def permitJoin (s : CtrlState) (permit : Bool) : CtrlState × List Action :=
  if permit && s.permitJoinTimer.isNone then
    ({ s with permitJoinTimer := some { intervalMs := 200 * 1000 } },
     [Action.call (AdapterCall.permitJoin 254)])
  else if permit then
    (s, [])
  else
    ({ s with permitJoinTimer := none }, [Action.call (AdapterCall.permitJoin 0)])

/-- One firing of the armed renewal timer's callback:
`await this.adapter.permitJoin(254)`. -/
def permitJoinTimerFire (s : CtrlState) : CtrlState × List Action :=
  match s.permitJoinTimer with
  | some _ => (s, [Action.call (AdapterCall.permitJoin 254)])
  | none => (s, [])

/-- `Controller.getPermitJoin` as written: `return this.permitJoin != null`.
`this.permitJoin` is the bound `permitJoin` method — always a non-null
function reference — so the comparison is `true` in every state; the
`permitJoinTimer` field is never consulted. -/
def getPermitJoin (_s : CtrlState) : Bool := true

/-- Modelled from the spec: the query operation "reports whether admission
is currently enabled by checking timer presence". -/
def getPermitJoinSpec (s : CtrlState) : Bool := s.permitJoinTimer.isSome

/-- `Controller.getOrCreateGroup`. -/
def getOrCreateGroup (s : CtrlState) (groupID : Nat) : CtrlState × List Action :=
  if groupID ∈ s.groups then
    (s, [])
  else
    ({ s with groups := s.groups ++ [groupID] },
     [Action.write (DbWrite.createGroup groupID)])

/-- The task `Controller.start` hands to `setTimeout`. -/
structure ScheduledTask where
  delayMs : Nat
  ieeeAddr : String
  endpointID : Nat
  groupID : Nat
  cluster : String
  command : String
deriving DecidableEq

/-- The hard-coded task scheduled by `Controller.start`: after 1000 ms,
look up device `0x000b57fffec6a5b2`, take its endpoint 1, get-or-create
group 1 and send `genOnOff off` to it. -/
def startTask : ScheduledTask :=
  { delayMs := 1000, ieeeAddr := "0x000b57fffec6a5b2", endpointID := 1,
    groupID := 1, cluster := "genOnOff", command := "off" }

/-- Coordinator identity reported by `adapter.getCoordinator()`. -/
structure CoordinatorInfo where
  ieeeAddr : String
  networkAddress : Nat
  manufacturerID : Nat
  endpoints : List Nat
deriving DecidableEq

/-- `Controller.start` (after the external database open and adapter
start): ensure a coordinator record exists, and schedule `startTask`. -/
def start (s : CtrlState) (coordinator : CoordinatorInfo) :
    CtrlState × List Action × List ScheduledTask :=
  if (findByType s "Coordinator").length == 0 then
    ({ s with devices := s.devices ++
        [{ dtype := some "Coordinator", ieeeAddr := coordinator.ieeeAddr,
           networkAddress := coordinator.networkAddress,
           manufacturerID := some coordinator.manufacturerID,
           modelID := none, interviewed := false,
           endpoints := coordinator.endpoints }] },
     [Action.write (DbWrite.createDevice coordinator.ieeeAddr)], [startTask])
  else
    (s, [], [startTask])

/-- Executing `startTask` when its timeout fires: `Device.findByIeeeAddr`
on the hard-coded address (a missing device makes the callback throw on
`device.getEndpoint(1)`, modelled as `none`), an endpoint lookup, then
`getOrCreateGroup(1)` and `group.command('genOnOff', 'off', {})`. -/
def runScheduledTask (s : CtrlState) (t : ScheduledTask) :
    Option (CtrlState × List Action) :=
  match findByIeeeAddr s t.ieeeAddr with
  | none => none
  | some device =>
    let _endpoint := device.getEndpoint t.endpointID
    some ((getOrCreateGroup s t.groupID).1,
      (getOrCreateGroup s t.groupID).2 ++
        [Action.call (AdapterCall.groupCommand t.groupID t.cluster t.command)])

/-- External stimuli driving the controller: adapter events, interview
resolutions, public API calls and timer fires. -/
inductive ExtEvent
  | deviceJoined (payload : DeviceJoinedPayload)
  | interviewComplete (ieeeAddr : String) (success : Bool)
  | zclData (z : ZclDataPayload) (sendFails : Bool)
  | deviceAnnounce (ieeeAddr : String)
  | permitJoinCall (permit : Bool)
  | permitJoinTick

/-- Dispatch one external stimulus. -/
def step (s : CtrlState) (e : ExtEvent) : CtrlState × List Action :=
  match e with
  | ExtEvent.deviceJoined p => onDeviceJoined s p
  | ExtEvent.interviewComplete a ok => onInterviewComplete s a ok
  | ExtEvent.zclData z sf => onZclData s z sf
  | ExtEvent.deviceAnnounce a => onDeviceAnnounce s a
  | ExtEvent.permitJoinCall p => permitJoin s p
  | ExtEvent.permitJoinTick => permitJoinTimerFire s

/-- Run a sequence of stimuli, concatenating the action traces. -/
def run (s : CtrlState) : List ExtEvent → CtrlState × List Action
  | [] => (s, [])
  | e :: rest =>
    ((run (step s e).1 rest).1, (step s e).2 ++ (run (step s e).1 rest).2)

/-- Is this action an interview-started emission for device `a`? -/
def isStartedFor (a : String) : Action → Bool
  | Action.emit (Event.deviceInterview InterviewStatus.started b) => b == a
  | _ => false

/-- Is this action an interview-finished (successful or failed) emission
for device `a`? -/
def isFinishedFor (a : String) : Action → Bool
  | Action.emit (Event.deviceInterview InterviewStatus.successful b) => b == a
  | Action.emit (Event.deviceInterview InterviewStatus.failed b) => b == a
  | _ => false

/-- Is this action a `deviceJoined` emission? -/
def isDeviceJoinedEmit : Action → Bool
  | Action.emit (Event.deviceJoined _) => true
  | _ => false

/-- Is this action a `message` emission? -/
def isMessageEmit : Action → Bool
  | Action.emit (Event.message _ _ _ _ _ _) => true
  | _ => false

/-- Is this action any event emission? -/
def isEmit : Action → Bool
  | Action.emit _ => true
  | _ => false

/-- Is this action a default-response adapter call? -/
def isDefaultResponseCall : Action → Bool
  | Action.call (AdapterCall.defaultResponse _ _ _ _ _) => true
  | _ => false

/-- Is this action a repository write? -/
def isDbWrite : Action → Bool
  | Action.write _ => true
  | _ => false

/-- Is this action a model-id repository write? -/
def isSetModelIDWrite : Action → Bool
  | Action.write (DbWrite.setModelID _ _) => true
  | _ => false

/-- Is this action a group-command adapter call? -/
def isGroupCommandCall : Action → Bool
  | Action.call (AdapterCall.groupCommand _ _ _) => true
  | _ => false

/-- Is this action a message emission or a default-response call?  Used to
state that all message emissions precede all default-response attempts. -/
def isMsgOrResp (a : Action) : Bool := isMessageEmit a || isDefaultResponseCall a

/-! ## Helper lemmas -/

theorem findByIeeeAddr_updateDeviceRec (s : CtrlState) (a b : String)
    (f : DeviceRec → DeviceRec) (hf : ∀ d, (f d).ieeeAddr = d.ieeeAddr) :
    findByIeeeAddr (updateDeviceRec s a f) b =
      (findByIeeeAddr s b).map (fun d => if d.ieeeAddr == a then f d else d) := by
  unfold findByIeeeAddr updateDeviceRec
  rw [List.find?_map]
  have hcomp : ((fun d => d.ieeeAddr == b) ∘ fun d => if d.ieeeAddr == a then f d else d) =
      (fun (d : DeviceRec) => d.ieeeAddr == b) := by
    funext d
    by_cases h : d.ieeeAddr == a <;> simp [Function.comp, h, hf]
  rw [hcomp]

theorem interviewPart_devices (s : CtrlState) (d : DeviceRec) (acc : List Action) :
    (interviewPart s d acc).1.devices = s.devices := by
  unfold interviewPart deviceInterviewCall
  split
  · rfl
  · split <;> rfl

theorem interviewPart_groups (s : CtrlState) (d : DeviceRec) (acc : List Action) :
    (interviewPart s d acc).1.groups = s.groups := by
  unfold interviewPart deviceInterviewCall
  split
  · rfl
  · split <;> rfl

theorem interviewPart_acts (s : CtrlState) (d : DeviceRec) (acc : List Action) :
    (interviewPart s d acc).2 = acc ∨
    (interviewPart s d acc).2 =
      acc ++ [Action.emit (Event.deviceInterview InterviewStatus.started d.ieeeAddr)] := by
  unfold interviewPart deviceInterviewCall
  split
  · exact Or.inl rfl
  · split <;> exact Or.inr rfl

theorem interviewPart_of_inProgress (s : CtrlState) (d : DeviceRec) (acc : List Action)
    (hip : d.ieeeAddr ∈ s.interviewsInProgress) (hni : d.interviewed = false) :
    interviewPart s d acc =
      (s, acc ++ [Action.emit (Event.deviceInterview InterviewStatus.started d.ieeeAddr)]) := by
  unfold interviewPart deviceInterviewCall
  simp [hip, hni]

theorem interviewPart_filter (s : CtrlState) (d : DeviceRec) (acc : List Action)
    (p : Action → Bool)
    (hp : p (Action.emit (Event.deviceInterview InterviewStatus.started d.ieeeAddr)) = false) :
    ((interviewPart s d acc).2).filter p = acc.filter p := by
  rcases interviewPart_acts s d acc with h | h
  · rw [h]
  · rw [h]
    simp [hp]

theorem zclEndpointActs_filter (device : DeviceRec) (z : ZclDataPayload)
    (p : Action → Bool) (hp : ∀ w, p (Action.write w) = false) :
    (zclEndpointActs device z).filter p = [] := by
  unfold zclEndpointActs
  cases device.getEndpoint z.endpoint <;> simp [List.filter, hp]

theorem modelIdBackfill_filter (s : CtrlState) (device : DeviceRec)
    (cls : Option (String × KeyValue)) (p : Action → Bool)
    (hp : ∀ w, p (Action.write w) = false) :
    ((modelIdBackfill s device cls).2).filter p = [] := by
  rcases cls with _ | ⟨t, data⟩
  · rfl
  · cases hm : getKV data "modelId"
    · simp [modelIdBackfill, hm]
    · simp only [modelIdBackfill, hm]
      split <;> simp [List.filter, hp]

theorem zclEmitActs_filter (device : DeviceRec) (z : ZclDataPayload)
    (p : Action → Bool) (hp : ∀ e, p (Action.emit e) = false) :
    (zclEmitActs device z).filter p = [] := by
  unfold zclEmitActs
  rcases classify z.frame with _ | ⟨t, data⟩ <;> simp [List.filter, hp]

theorem zclRespActs_eq (z : ZclDataPayload) (sendFails : Bool) :
    zclRespActs z sendFails =
      (if z.frame.Header.frameControl.disableDefaultResponse then ([] : List Action)
       else [Action.call (AdapterCall.defaultResponse z.networkAddress z.endpoint
               z.frame.getCommand.ID 0 z.frame.ClusterID)]) := by
  unfold zclRespActs defaultResponseAttempt
  cases sendFails <;> rfl

theorem zclRespActs_filter (z : ZclDataPayload) (sendFails : Bool)
    (p : Action → Bool) (hp : ∀ c, p (Action.call c) = false) :
    (zclRespActs z sendFails).filter p = [] := by
  rw [zclRespActs_eq]
  split <;> simp [List.filter, hp]

theorem modelIdBackfill_of_set (s : CtrlState) (device : DeviceRec)
    (cls : Option (String × KeyValue)) (h : truthyStr device.modelID = true) :
    modelIdBackfill s device cls = (s, []) := by
  unfold modelIdBackfill
  rcases cls with _ | ⟨t, data⟩
  · rfl
  · cases hm : getKV data "modelId" <;> simp [hm, h]

theorem modelIdBackfill_of_unset (s : CtrlState) (device : DeviceRec)
    (t : String) (data : KeyValue) (m : String)
    (ht : t = "attributeReport" ∨ t = "readResponse")
    (hm : getKV data "modelId" = some m) (hmne : ¬(m = ""))
    (hunset : device.modelID = none) :
    modelIdBackfill s device (some (t, data)) =
      (setModelID s device.ieeeAddr m,
       [Action.write (DbWrite.setModelID device.ieeeAddr m)]) := by
  unfold modelIdBackfill
  rcases ht with rfl | rfl <;> simp [hm, hmne, hunset, truthyStr]

theorem zclEndpointState_some (s : CtrlState) (device : DeviceRec)
    (z : ZclDataPayload) (e : Nat) (h : device.getEndpoint z.endpoint = some e) :
    zclEndpointState s device z = s := by
  unfold zclEndpointState
  rw [h]

theorem zclEndpointState_none (s : CtrlState) (device : DeviceRec)
    (z : ZclDataPayload) (h : device.getEndpoint z.endpoint = none) :
    zclEndpointState s device z = createEndpoint s device.ieeeAddr z.endpoint := by
  unfold zclEndpointState
  rw [h]

theorem findByIeeeAddr_zclEndpointState (s : CtrlState) (d : DeviceRec)
    (z : ZclDataPayload) (huniq : findByIeeeAddr s d.ieeeAddr = some d) :
    ∃ d1, findByIeeeAddr (zclEndpointState s d z) d.ieeeAddr = some d1 ∧
      d1.modelID = d.modelID ∧ d1.ieeeAddr = d.ieeeAddr := by
  cases hep : d.getEndpoint z.endpoint
  · refine ⟨{ d with endpoints := d.endpoints ++ [z.endpoint] }, ?_, rfl, rfl⟩
    rw [zclEndpointState_none s d z hep]
    unfold createEndpoint
    rw [findByIeeeAddr_updateDeviceRec s d.ieeeAddr d.ieeeAddr
      (fun e => { e with endpoints := e.endpoints ++ [z.endpoint] }) (fun _ => rfl), huniq]
    simp
  · next e =>
    rw [zclEndpointState_some s d z e hep]
    exact ⟨d, huniq, rfl, rfl⟩

theorem findByIeeeAddr_setModelID (s : CtrlState) (a : String) (m : String)
    (d1 : DeviceRec) (h : findByIeeeAddr s a = some d1) (ha : d1.ieeeAddr = a) :
    (findByIeeeAddr (setModelID s a m) a).map DeviceRec.modelID = some (some m) := by
  unfold setModelID
  rw [findByIeeeAddr_updateDeviceRec s a a
    (fun e => { e with modelID := some m }) (fun _ => rfl), h]
  simp [ha]

theorem classify_global_report (f : ZclFrame)
    (ht : f.Header.frameControl.frameType = FrameType.GLOBAL)
    (hc : f.Header.commandIdentifier = Foundation.report.ID) :
    classify f = some ("attributeReport", ZclFrameConverter.attributeList f) := by
  simp [classify, ht, hc, Foundation.report]

theorem classify_global_readRsp (f : ZclFrame)
    (ht : f.Header.frameControl.frameType = FrameType.GLOBAL)
    (hc : f.Header.commandIdentifier = Foundation.readRsp.ID) :
    classify f = some ("readResponse", ZclFrameConverter.attributeList f) := by
  simp [classify, ht, hc, Foundation.report, Foundation.readRsp]

theorem classify_specific (f : ZclFrame)
    (ht : f.Header.frameControl.frameType = FrameType.SPECIFIC) :
    classify f =
      (match CommandsLookup f.command.name with
       | some k => some (k, f.Payload)
       | none => none) := by
  simp [classify, ht]

theorem zclEndpointActs_filter_setModelID (device : DeviceRec) (z : ZclDataPayload) :
    (zclEndpointActs device z).filter isSetModelIDWrite = [] := by
  unfold zclEndpointActs
  cases device.getEndpoint z.endpoint <;> simp [List.filter, isSetModelIDWrite]

theorem zclEmitActs_filter_or (device : DeviceRec) (z : ZclDataPayload) :
    (zclEmitActs device z).filter isMsgOrResp =
      (zclEmitActs device z).filter isMessageEmit := by
  unfold zclEmitActs
  rcases classify z.frame with _ | ⟨t, data⟩ <;>
    simp [List.filter, isMsgOrResp, isMessageEmit, isDefaultResponseCall]

theorem zclRespActs_filter_or (z : ZclDataPayload) (sendFails : Bool) :
    (zclRespActs z sendFails).filter isMsgOrResp =
      (zclRespActs z sendFails).filter isDefaultResponseCall := by
  rw [zclRespActs_eq]
  split <;> simp [List.filter, isMsgOrResp, isMessageEmit, isDefaultResponseCall]

/-! ## C2: getPermitJoin -/

/-- C2 — The code's query: `getPermitJoin` returns `this.permitJoin != null`,
where `this.permitJoin` is the always-bound method, so it returns `true` in
every state — also in the initial state, where the renewal timer is not
armed and the spec-modelled timer-presence query returns `false`.  This
exhibits the divergence the claim forbids. -/
theorem C2_get_permit_join_code_bug :
    getPermitJoin initialState = true ∧
    initialState.permitJoinTimer = none ∧
    getPermitJoinSpec initialState = false ∧
    (∀ s : CtrlState, getPermitJoin s = true) :=
  ⟨rfl, rfl, rfl, fun _ => rfl⟩

/-! ## C7: unknown-device frames are dropped silently -/

/-- C7 — A frame whose network address resolves to no known device stops
handling immediately: the state is unchanged (no repository write) and the
action trace is empty (no events published, no adapter call), with no error
raised. -/
theorem C7_unknown_device_drop (s : CtrlState) (z : ZclDataPayload) (sendFails : Bool)
    (h : findByNetworkAddress s z.networkAddress = none) :
    onZclData s z sendFails = (s, []) := by
  simp [onZclData, h]

theorem C7_unknown_device_drop_witness :
    onZclData initialState
      { networkAddress := 1, endpoint := 1,
        frame :=
          { Header := { frameControl := { frameType := FrameType.GLOBAL,
                                          disableDefaultResponse := false },
                        commandIdentifier := 10 },
            ClusterID := 0, Payload := ([] : KeyValue),
            command := { name := "report", ID := 10 },
            attributes := ([("modelId", "X")] : KeyValue) },
        linkquality := 50, groupID := none } false = (initialState, []) :=
  C7_unknown_device_drop initialState _ false (by decide)

/-! ## C8: permitJoin admission control -/

/-- C8 — `permitJoin(true)` when disabled issues `permitJoin(254)` to the
adapter and arms the renewal timer with a 200·1000 ms (= 200 s) interval
whose firing reissues `permitJoin(254)`; `permitJoin(true)` when already
enabled is a no-op issuing no adapter command and arming no second timer
(the single `permitJoinTimer` field holds at most one timer). -/
theorem C8_permit_join_arming (s : CtrlState) :
    (s.permitJoinTimer = none →
      permitJoin s true =
        ({ s with permitJoinTimer := some { intervalMs := 200 * 1000 } },
         [Action.call (AdapterCall.permitJoin 254)]) ∧
      permitJoinTimerFire (permitJoin s true).1 =
        ((permitJoin s true).1, [Action.call (AdapterCall.permitJoin 254)])) ∧
    (∀ t, s.permitJoinTimer = some t → permitJoin s true = (s, [])) := by
  constructor
  · intro h
    constructor
    · simp [permitJoin, h]
    · simp [permitJoin, h, permitJoinTimerFire]
  · intro t h
    simp [permitJoin, h]

theorem C8_permit_join_arming_witness :
    permitJoin initialState true =
      ({ initialState with permitJoinTimer := some { intervalMs := 200 * 1000 } },
       [Action.call (AdapterCall.permitJoin 254)]) ∧
    permitJoinTimerFire (permitJoin initialState true).1 =
      ((permitJoin initialState true).1, [Action.call (AdapterCall.permitJoin 254)]) ∧
    permitJoin (permitJoin initialState true).1 true = ((permitJoin initialState true).1, []) :=
  ⟨((C8_permit_join_arming initialState).1 rfl).1,
   ((C8_permit_join_arming initialState).1 rfl).2,
   (C8_permit_join_arming (permitJoin initialState true).1).2
     { intervalMs := 200 * 1000 } (by decide)⟩

/-! ## C9: device announce -/

/-- C9 — `onDeviceAnnounce` starts no interview and creates no device: the
state is untouched, and exactly one `deviceAnnounce` event is published
carrying the repository lookup result; when the device is unknown the event
still fires with an absent (`none`) device reference. -/
theorem C9_device_announce (s : CtrlState) (a : String) :
    (onDeviceAnnounce s a).1 = s ∧
    (onDeviceAnnounce s a).2 =
      [Action.emit (Event.deviceAnnounce (findByIeeeAddr s a))] ∧
    ((onDeviceAnnounce s a).2.filter (isStartedFor a)) = [] ∧
    (findByIeeeAddr s a = none →
      (onDeviceAnnounce s a).2 = [Action.emit (Event.deviceAnnounce none)]) := by
  refine ⟨rfl, rfl, by simp [onDeviceAnnounce, isStartedFor, List.filter], ?_⟩
  intro h
  simp [onDeviceAnnounce, h]

theorem C9_device_announce_witness :
    (onDeviceAnnounce initialState "0xAB").2 =
      [Action.emit (Event.deviceAnnounce none)] :=
  (C9_device_announce initialState "0xAB").2.2.2 (by decide)

/-! ## C10: the hidden scheduled task in start -/

/-- C10 — Every call to `start` schedules, besides ensuring the coordinator
record, a task delayed by 1000 ms that looks up the hard-coded device
`0x000b57fffec6a5b2`, takes its endpoint 1, gets-or-creates group 1 and
sends a `genOnOff off` command to that group. -/
theorem C10_hidden_start_task (s : CtrlState) (c : CoordinatorInfo) :
    (start s c).2.2 = [startTask] ∧
    startTask.delayMs = 1000 ∧
    startTask.ieeeAddr = "0x000b57fffec6a5b2" ∧
    startTask.endpointID = 1 ∧ startTask.groupID = 1 ∧
    startTask.cluster = "genOnOff" ∧ startTask.command = "off" ∧
    (∀ s1 d, findByIeeeAddr s1 startTask.ieeeAddr = some d →
      runScheduledTask s1 startTask =
        some ((getOrCreateGroup s1 1).1,
          (getOrCreateGroup s1 1).2 ++
            [Action.call (AdapterCall.groupCommand 1 "genOnOff" "off")]) ∧
      (getOrCreateGroup s1 1).1.groups =
        (if 1 ∈ s1.groups then s1.groups else s1.groups ++ [1])) := by
  refine ⟨?_, rfl, rfl, rfl, rfl, rfl, rfl, ?_⟩
  · unfold start
    split <;> rfl
  · intro s1 d h
    constructor
    · simp only [startTask] at h
      simp [runScheduledTask, startTask, h]
    · unfold getOrCreateGroup
      split <;> simp_all

/-- Concrete device record for the C10 witness scenario. -/
def c10Device : DeviceRec :=
  { dtype := none, ieeeAddr := "0x000b57fffec6a5b2", networkAddress := 7,
    manufacturerID := none, modelID := none, interviewed := true, endpoints := [1] }

/-- Concrete state for the C10 witness scenario. -/
def c10State : CtrlState :=
  { devices := [c10Device], groups := [], interviewsInProgress := [],
    permitJoinTimer := none }

theorem C10_hidden_start_task_witness :
    runScheduledTask c10State startTask =
      some ((getOrCreateGroup c10State 1).1,
        (getOrCreateGroup c10State 1).2 ++
          [Action.call (AdapterCall.groupCommand 1 "genOnOff" "off")]) :=
  ((C10_hidden_start_task initialState
      { ieeeAddr := "0xC0", networkAddress := 0, manufacturerID := 0,
        endpoints := [] }).2.2.2.2.2.2.2
    c10State c10Device (by decide)).1

/-! ## C4: join creates or updates the device record -/

/-- C4 — A join for an unknown hardware address creates the device and
publishes exactly one `deviceJoined` event; a join for a known device whose
stored network address differs updates the stored address and publishes no
`deviceJoined` event. -/
theorem C4_join_create_or_update (s : CtrlState) (p : DeviceJoinedPayload) :
    (findByIeeeAddr s p.ieeeAddr = none →
      ((onDeviceJoined s p).2.filter isDeviceJoinedEmit =
        [Action.emit (Event.deviceJoined p.ieeeAddr)]) ∧
      findByIeeeAddr (onDeviceJoined s p).1 p.ieeeAddr =
        some { dtype := none, ieeeAddr := p.ieeeAddr,
               networkAddress := p.networkAddress, manufacturerID := none,
               modelID := none, interviewed := false, endpoints := [] }) ∧
    (∀ d, findByIeeeAddr s p.ieeeAddr = some d →
      ¬(d.networkAddress = p.networkAddress) →
      ((onDeviceJoined s p).2.filter isDeviceJoinedEmit = []) ∧
      findByIeeeAddr (onDeviceJoined s p).1 p.ieeeAddr =
        some { d with networkAddress := p.networkAddress }) := by
  constructor
  · intro h
    constructor
    · simp only [onDeviceJoined, h]
      rw [interviewPart_filter _ _ _ _ rfl]
      simp [isDeviceJoinedEmit, List.filter]
    · simp only [onDeviceJoined, h]
      unfold findByIeeeAddr
      rw [interviewPart_devices]
      have h' : s.devices.find? (fun d => d.ieeeAddr == p.ieeeAddr) = none := h
      simp [List.find?_append, h']
  · intro d h hne
    have hbeq : (d.networkAddress == p.networkAddress) = false := by
      simp [hne]
    constructor
    · simp only [onDeviceJoined, h, hbeq, Bool.false_eq_true, if_false]
      rw [interviewPart_filter _ _ _ _ rfl]
      simp [isDeviceJoinedEmit, List.filter]
    · simp only [onDeviceJoined, h, hbeq, Bool.false_eq_true, if_false]
      have h0 : s.devices.find? (fun e => e.ieeeAddr == p.ieeeAddr) = some d := h
      have hieee := List.find?_some h0
      simp only at hieee
      unfold findByIeeeAddr
      rw [interviewPart_devices]
      have hupd := findByIeeeAddr_updateDeviceRec s p.ieeeAddr p.ieeeAddr
        (fun e => { e with networkAddress := p.networkAddress }) (fun _ => rfl)
      unfold findByIeeeAddr at hupd
      unfold setNetworkAddress updateDeviceRec
      rw [show (updateDeviceRec s p.ieeeAddr
            (fun e => { e with networkAddress := p.networkAddress })).devices =
          s.devices.map (fun e => if e.ieeeAddr == p.ieeeAddr then
            { e with networkAddress := p.networkAddress } else e) from rfl] at hupd
      rw [hupd, h0]
      have hieq : d.ieeeAddr = p.ieeeAddr := by simpa using hieee
      simp [hieq]

/-- Concrete device record for the C4 witness scenario. -/
def c4Device : DeviceRec :=
  { dtype := none, ieeeAddr := "0xAA", networkAddress := 1,
    manufacturerID := none, modelID := none, interviewed := true, endpoints := [] }

/-- Concrete state for the C4 witness scenario. -/
def c4State : CtrlState :=
  { devices := [c4Device], groups := [], interviewsInProgress := [],
    permitJoinTimer := none }

theorem C4_join_create_or_update_witness :
    (((onDeviceJoined initialState { ieeeAddr := "0xAA", networkAddress := 1 }).2.filter
        isDeviceJoinedEmit) = [Action.emit (Event.deviceJoined "0xAA")]) ∧
    (((onDeviceJoined c4State { ieeeAddr := "0xAA", networkAddress := 2 }).2.filter
        isDeviceJoinedEmit) = []) ∧
    findByIeeeAddr (onDeviceJoined c4State { ieeeAddr := "0xAA", networkAddress := 2 }).1
        "0xAA" =
      some { dtype := none, ieeeAddr := "0xAA", networkAddress := 2,
             manufacturerID := none, modelID := none, interviewed := true,
             endpoints := [] } :=
  ⟨((C4_join_create_or_update initialState { ieeeAddr := "0xAA", networkAddress := 1 }).1
      (by decide)).1,
   ((C4_join_create_or_update c4State { ieeeAddr := "0xAA", networkAddress := 2 }).2
      c4Device (by decide) (by decide)).1,
   ((C4_join_create_or_update c4State { ieeeAddr := "0xAA", networkAddress := 2 }).2
      c4Device (by decide) (by decide)).2⟩

/-! ## C1: duplicate join during a running interview -/

/-- C1 counterexample — two joins for the same device in a row (the second
arriving while the interview opened by the first is still in progress)
produce TWO `deviceInterview started` events and no finished event between
them: the second handling does publish a second interview-started event,
because `onDeviceJoined` emits `started` before `device.interview()` can
report `alreadyInProgress`. -/
theorem C1_counterexample :
    (((run initialState
        [ExtEvent.deviceJoined { ieeeAddr := "0xAA", networkAddress := 1 },
         ExtEvent.deviceJoined { ieeeAddr := "0xAA", networkAddress := 1 }]).2.filter
          (isStartedFor "0xAA")).length = 2) ∧
    (((run initialState
        [ExtEvent.deviceJoined { ieeeAddr := "0xAA", networkAddress := 1 },
         ExtEvent.deviceJoined { ieeeAddr := "0xAA", networkAddress := 1 }]).2.filter
          (isFinishedFor "0xAA")).length = 0) := by
  decide

/-- C1 amended — when a duplicate join arrives while an interview for that
device is in progress, the second handling publishes a second
interview-started event (emitted before the in-progress check), but
publishes no interview-finished event, publishes no `deviceJoined` event,
and does not restart the interview: the set of running interview sessions
is unchanged. -/
theorem C1_duplicate_join_amended (s : CtrlState) (p : DeviceJoinedPayload) (d : DeviceRec)
    (hfind : findByIeeeAddr s p.ieeeAddr = some d)
    (hni : d.interviewed = false)
    (hip : d.ieeeAddr ∈ s.interviewsInProgress) :
    ((onDeviceJoined s p).2.filter (isStartedFor d.ieeeAddr) =
      [Action.emit (Event.deviceInterview InterviewStatus.started d.ieeeAddr)]) ∧
    ((onDeviceJoined s p).2.filter (isFinishedFor d.ieeeAddr) = []) ∧
    ((onDeviceJoined s p).2.filter isDeviceJoinedEmit = []) ∧
    (onDeviceJoined s p).1.interviewsInProgress = s.interviewsInProgress := by
  by_cases hn : d.networkAddress = p.networkAddress
  · have hbeq : (d.networkAddress == p.networkAddress) = true := by simp [hn]
    have hpart := interviewPart_of_inProgress s d [] hip hni
    simp [onDeviceJoined, hfind, hbeq, hpart, List.filter,
      isStartedFor, isFinishedFor, isDeviceJoinedEmit]
  · have hbeq : (d.networkAddress == p.networkAddress) = false := by simp [hn]
    have hip2 : ({ d with networkAddress := p.networkAddress } : DeviceRec).ieeeAddr ∈
        (setNetworkAddress s p.ieeeAddr p.networkAddress).interviewsInProgress := hip
    have hpart := interviewPart_of_inProgress
      (setNetworkAddress s p.ieeeAddr p.networkAddress)
      { d with networkAddress := p.networkAddress }
      [Action.write (DbWrite.setNetworkAddress p.ieeeAddr p.networkAddress)] hip2 hni
    simp only [onDeviceJoined, hfind, hbeq, Bool.false_eq_true, if_false]
    rw [hpart]
    simp [List.filter, isStartedFor, isFinishedFor, isDeviceJoinedEmit,
      setNetworkAddress, updateDeviceRec]

/-- Concrete device record for the C1 witness scenario: not interviewed,
with an interview already in progress. -/
def c1Device : DeviceRec :=
  { dtype := none, ieeeAddr := "0xAA", networkAddress := 1,
    manufacturerID := none, modelID := none, interviewed := false, endpoints := [] }

/-- Concrete state for the C1 witness scenario. -/
def c1State : CtrlState :=
  { devices := [c1Device], groups := [], interviewsInProgress := ["0xAA"],
    permitJoinTimer := none }

theorem C1_duplicate_join_amended_witness :
    (((onDeviceJoined c1State { ieeeAddr := "0xAA", networkAddress := 1 }).2.filter
        (isStartedFor "0xAA")) =
      [Action.emit (Event.deviceInterview InterviewStatus.started "0xAA")]) ∧
    (((onDeviceJoined c1State { ieeeAddr := "0xAA", networkAddress := 1 }).2.filter
        (isFinishedFor "0xAA")) = []) ∧
    (onDeviceJoined c1State
        { ieeeAddr := "0xAA", networkAddress := 1 }).1.interviewsInProgress = ["0xAA"] :=
  ⟨(C1_duplicate_join_amended c1State { ieeeAddr := "0xAA", networkAddress := 1 } c1Device
      (by decide) (by decide) (by decide)).1,
   (C1_duplicate_join_amended c1State { ieeeAddr := "0xAA", networkAddress := 1 } c1Device
      (by decide) (by decide) (by decide)).2.1,
   (C1_duplicate_join_amended c1State { ieeeAddr := "0xAA", networkAddress := 1 } c1Device
      (by decide) (by decide) (by decide)).2.2.2⟩

/-! ## C3: default-response obligation -/

/-- Concrete frame payload for the C3 counterexample: unknown source device,
default-response not disabled. -/
def c3UnknownPayload : ZclDataPayload :=
  { networkAddress := 9, endpoint := 1,
    frame :=
      { Header := { frameControl := { frameType := FrameType.GLOBAL,
                                      disableDefaultResponse := false },
                    commandIdentifier := 10 },
        ClusterID := 0, Payload := ([] : KeyValue),
        command := { name := "report", ID := 10 },
        attributes := ([] : KeyValue) },
    linkquality := 10, groupID := none }

/-- C3 counterexample — a frame from an unknown network address whose
header does NOT disable default-response still triggers no outbound
default-response call (handling stops at the device lookup), refuting the
claim's "if and only if" over every incoming frame. -/
theorem C3_counterexample :
    c3UnknownPayload.frame.Header.frameControl.disableDefaultResponse = false ∧
    (onZclData initialState c3UnknownPayload false).2.filter isDefaultResponseCall = [] := by
  decide

/-- C3 amended — for every incoming frame WHOSE SOURCE DEVICE RESOLVES, an
outbound default-response is sent iff the header does not disable it, and
when sent it is addressed to the original command id with status 0 on the
cluster id the frame arrived on; the handler's outcome is identical whether
the send is rejected or not (the error is caught and never propagates); and
every message emission precedes every default-response attempt in the
action trace. -/
theorem C3_default_response_obligation (s : CtrlState) (z : ZclDataPayload)
    (sf : Bool) (d : DeviceRec)
    (hfind : findByNetworkAddress s z.networkAddress = some d) :
    ((onZclData s z sf).2.filter isDefaultResponseCall =
      (if z.frame.Header.frameControl.disableDefaultResponse then ([] : List Action)
       else [Action.call (AdapterCall.defaultResponse z.networkAddress z.endpoint
               z.frame.getCommand.ID 0 z.frame.ClusterID)])) ∧
    onZclData s z true = onZclData s z false ∧
    ((onZclData s z sf).2.filter isMsgOrResp =
      (onZclData s z sf).2.filter isMessageEmit
        ++ (onZclData s z sf).2.filter isDefaultResponseCall) := by
  refine ⟨?_, ?_, ?_⟩
  · simp only [onZclData, hfind, List.filter_append]
    rw [zclEndpointActs_filter d z isDefaultResponseCall (fun _ => rfl),
        modelIdBackfill_filter _ _ _ isDefaultResponseCall (fun _ => rfl),
        zclEmitActs_filter d z isDefaultResponseCall (fun _ => rfl),
        zclRespActs_eq]
    split <;> simp [List.filter, isDefaultResponseCall]
  · simp only [onZclData, hfind]
    rw [zclRespActs_eq, zclRespActs_eq]
  · simp only [onZclData, hfind, List.filter_append]
    rw [zclEndpointActs_filter d z isMsgOrResp (fun _ => rfl),
        zclEndpointActs_filter d z isMessageEmit (fun _ => rfl),
        zclEndpointActs_filter d z isDefaultResponseCall (fun _ => rfl),
        modelIdBackfill_filter _ _ _ isMsgOrResp (fun _ => rfl),
        modelIdBackfill_filter _ _ _ isMessageEmit (fun _ => rfl),
        modelIdBackfill_filter _ _ _ isDefaultResponseCall (fun _ => rfl),
        zclEmitActs_filter d z isDefaultResponseCall (fun _ => rfl),
        zclRespActs_filter z sf isMessageEmit (fun _ => rfl),
        zclEmitActs_filter_or, zclRespActs_filter_or]
    simp

/-- Concrete device and state for the C3 witness scenario. -/
def c3Device : DeviceRec :=
  { dtype := none, ieeeAddr := "0xAA", networkAddress := 1,
    manufacturerID := none, modelID := none, interviewed := true, endpoints := [1] }

/-- Concrete state for the C3 witness scenario. -/
def c3State : CtrlState :=
  { devices := [c3Device], groups := [], interviewsInProgress := [],
    permitJoinTimer := none }

/-- Concrete frame payload for the C3 witness scenario: known device,
default-response enabled. -/
def c3KnownPayload : ZclDataPayload :=
  { networkAddress := 1, endpoint := 1,
    frame :=
      { Header := { frameControl := { frameType := FrameType.GLOBAL,
                                      disableDefaultResponse := false },
                    commandIdentifier := 10 },
        ClusterID := 6, Payload := ([] : KeyValue),
        command := { name := "report", ID := 10 },
        attributes := ([] : KeyValue) },
    linkquality := 10, groupID := none }

theorem C3_default_response_obligation_witness :
    ((onZclData c3State c3KnownPayload false).2.filter isDefaultResponseCall =
      [Action.call (AdapterCall.defaultResponse 1 1 10 0 6)]) ∧
    onZclData c3State c3KnownPayload true = onZclData c3State c3KnownPayload false := by
  refine ⟨?_, (C3_default_response_obligation c3State c3KnownPayload false c3Device
    (by decide)).2.1⟩
  have h := (C3_default_response_obligation c3State c3KnownPayload false c3Device
    (by decide)).1
  simpa [c3KnownPayload] using h

/-! ## C5: frame classification -/

/-- C5 — For a frame whose source device resolves: a global frame with the
report command id publishes one attribute-report message whose payload is
the flattened attribute mapping; a global frame with the read-response
command id publishes one read-response message with the same payload
extraction; a specific frame whose command name is in the lookup table
publishes one message of the looked-up kind with the frame body as payload;
a specific frame whose command name is absent publishes no event at all. -/
theorem C5_frame_classification (s : CtrlState) (z : ZclDataPayload)
    (sf : Bool) (d : DeviceRec)
    (hfind : findByNetworkAddress s z.networkAddress = some d) :
    (z.frame.Header.frameControl.frameType = FrameType.GLOBAL →
      z.frame.Header.commandIdentifier = Foundation.report.ID →
      (onZclData s z sf).2.filter isMessageEmit =
        [Action.emit (Event.message "attributeReport" d.ieeeAddr z.endpoint
          (ZclFrameConverter.attributeList z.frame) z.linkquality z.groupID)]) ∧
    (z.frame.Header.frameControl.frameType = FrameType.GLOBAL →
      z.frame.Header.commandIdentifier = Foundation.readRsp.ID →
      (onZclData s z sf).2.filter isMessageEmit =
        [Action.emit (Event.message "readResponse" d.ieeeAddr z.endpoint
          (ZclFrameConverter.attributeList z.frame) z.linkquality z.groupID)]) ∧
    (∀ k, z.frame.Header.frameControl.frameType = FrameType.SPECIFIC →
      CommandsLookup z.frame.command.name = some k →
      (onZclData s z sf).2.filter isMessageEmit =
        [Action.emit (Event.message k d.ieeeAddr z.endpoint
          z.frame.Payload z.linkquality z.groupID)]) ∧
    (z.frame.Header.frameControl.frameType = FrameType.SPECIFIC →
      CommandsLookup z.frame.command.name = none →
      (onZclData s z sf).2.filter isEmit = []) := by
  refine ⟨?_, ?_, ?_, ?_⟩
  · intro ht hc
    have hcl := classify_global_report z.frame ht hc
    simp only [onZclData, hfind, List.filter_append]
    rw [zclEndpointActs_filter d z isMessageEmit (fun _ => rfl),
        modelIdBackfill_filter _ _ _ isMessageEmit (fun _ => rfl),
        zclRespActs_filter z sf isMessageEmit (fun _ => rfl)]
    simp [zclEmitActs, hcl, List.filter, isMessageEmit]
  · intro ht hc
    have hcl := classify_global_readRsp z.frame ht hc
    simp only [onZclData, hfind, List.filter_append]
    rw [zclEndpointActs_filter d z isMessageEmit (fun _ => rfl),
        modelIdBackfill_filter _ _ _ isMessageEmit (fun _ => rfl),
        zclRespActs_filter z sf isMessageEmit (fun _ => rfl)]
    simp [zclEmitActs, hcl, List.filter, isMessageEmit]
  · intro k ht hk
    have hcl : classify z.frame = some (k, z.frame.Payload) := by
      rw [classify_specific z.frame ht, hk]
    simp only [onZclData, hfind, List.filter_append]
    rw [zclEndpointActs_filter d z isMessageEmit (fun _ => rfl),
        modelIdBackfill_filter _ _ _ isMessageEmit (fun _ => rfl),
        zclRespActs_filter z sf isMessageEmit (fun _ => rfl)]
    simp [zclEmitActs, hcl, List.filter, isMessageEmit]
  · intro ht hk
    have hcl : classify z.frame = none := by
      rw [classify_specific z.frame ht, hk]
    simp only [onZclData, hfind, List.filter_append]
    rw [zclEndpointActs_filter d z isEmit (fun _ => rfl),
        modelIdBackfill_filter _ _ _ isEmit (fun _ => rfl),
        zclRespActs_filter z sf isEmit (fun _ => rfl)]
    simp [zclEmitActs, hcl, List.filter]

/-- Concrete device for the C5 witness scenario. -/
def c5Device : DeviceRec :=
  { dtype := none, ieeeAddr := "0xBB", networkAddress := 2,
    manufacturerID := none, modelID := some "known", interviewed := true,
    endpoints := [3] }

/-- Concrete state for the C5 witness scenario. -/
def c5State : CtrlState :=
  { devices := [c5Device], groups := [], interviewsInProgress := [],
    permitJoinTimer := none }

/-- Concrete global report frame payload for the C5 witness scenario. -/
def c5ReportPayload : ZclDataPayload :=
  { networkAddress := 2, endpoint := 3,
    frame :=
      { Header := { frameControl := { frameType := FrameType.GLOBAL,
                                      disableDefaultResponse := true },
                    commandIdentifier := 10 },
        ClusterID := 6, Payload := ([] : KeyValue),
        command := { name := "report", ID := 10 },
        attributes := ([("onOff", "1")] : KeyValue) },
    linkquality := 80, groupID := none }

/-- Concrete specific frame with a command name absent from the lookup
table, for the C5 witness scenario. -/
def c5SkippedPayload : ZclDataPayload :=
  { networkAddress := 2, endpoint := 3,
    frame :=
      { Header := { frameControl := { frameType := FrameType.SPECIFIC,
                                      disableDefaultResponse := true },
                    commandIdentifier := 64 },
        ClusterID := 6, Payload := ([("x", "y")] : KeyValue),
        command := { name := "tradfriArrowSingle", ID := 64 },
        attributes := ([] : KeyValue) },
    linkquality := 80, groupID := none }

theorem C5_frame_classification_witness :
    ((onZclData c5State c5ReportPayload false).2.filter isMessageEmit =
      [Action.emit (Event.message "attributeReport" "0xBB" 3
        (ZclFrameConverter.attributeList c5ReportPayload.frame) 80 none)]) ∧
    ((onZclData c5State c5SkippedPayload false).2.filter isEmit = []) :=
  ⟨(C5_frame_classification c5State c5ReportPayload false c5Device (by decide)).1
      (by decide) (by decide),
   (C5_frame_classification c5State c5SkippedPayload false c5Device (by decide)).2.2.2
      (by decide) (by decide)⟩

/-! ## C6: model-id backfill -/

/-- C6 — When the classified kind is attribute-report or read-response and
the payload carries a model identifier while the device's stored model id
is unset, the model id is persisted (one repository write, and the stored
model id afterwards equals the carried value); when the stored model id is
already set, no attribute-report or read-response overwrites it, whatever
model-id value it carries. -/
theorem C6_model_id_backfill (s : CtrlState) (z : ZclDataPayload) (sf : Bool)
    (d : DeviceRec) (t : String) (data : KeyValue)
    (hfind : findByNetworkAddress s z.networkAddress = some d)
    (huniq : findByIeeeAddr s d.ieeeAddr = some d)
    (hcls : classify z.frame = some (t, data)) :
    (∀ m, (t = "attributeReport" ∨ t = "readResponse") →
      getKV data "modelId" = some m → ¬(m = "") → d.modelID = none →
      ((onZclData s z sf).2.filter isSetModelIDWrite =
        [Action.write (DbWrite.setModelID d.ieeeAddr m)]) ∧
      (findByIeeeAddr (onZclData s z sf).1 d.ieeeAddr).map DeviceRec.modelID =
        some (some m)) ∧
    (∀ m0, d.modelID = some m0 → ¬(m0 = "") →
      ((onZclData s z sf).2.filter isSetModelIDWrite = []) ∧
      (findByIeeeAddr (onZclData s z sf).1 d.ieeeAddr).map DeviceRec.modelID =
        some (some m0)) := by
  obtain ⟨d1, hd1, hd1m, hd1a⟩ := findByIeeeAddr_zclEndpointState s d z huniq
  constructor
  · intro m ht hm hmne hunset
    have hbf := modelIdBackfill_of_unset (zclEndpointState s d z) d t data m
      ht hm hmne hunset
    constructor
    · simp only [onZclData, hfind, hcls, hbf, List.filter_append]
      rw [zclEndpointActs_filter_setModelID,
          zclEmitActs_filter d z isSetModelIDWrite (fun _ => rfl),
          zclRespActs_filter z sf isSetModelIDWrite (fun _ => rfl)]
      simp [List.filter, isSetModelIDWrite]
    · simp only [onZclData, hfind, hcls, hbf]
      exact findByIeeeAddr_setModelID (zclEndpointState s d z) d.ieeeAddr m d1 hd1 hd1a
  · intro m0 hset hm0ne
    have htr : truthyStr d.modelID = true := by
      simp [hset, truthyStr, hm0ne]
    have hbf := modelIdBackfill_of_set (zclEndpointState s d z) d (classify z.frame) htr
    constructor
    · simp only [onZclData, hfind, hbf, List.filter_append]
      rw [zclEndpointActs_filter_setModelID,
          zclEmitActs_filter d z isSetModelIDWrite (fun _ => rfl),
          zclRespActs_filter z sf isSetModelIDWrite (fun _ => rfl)]
      simp [List.filter]
    · simp only [onZclData, hfind, hbf]
      rw [hd1]
      simp [hd1m, hset]

/-- Concrete device (unset model id) for the C6 witness scenario. -/
def c6Device : DeviceRec :=
  { dtype := none, ieeeAddr := "0xCC", networkAddress := 4,
    manufacturerID := none, modelID := none, interviewed := true, endpoints := [1] }

/-- Concrete device (model id already set) for the C6 witness scenario. -/
def c6SetDevice : DeviceRec :=
  { dtype := none, ieeeAddr := "0xCD", networkAddress := 5,
    manufacturerID := none, modelID := some "lumi.first", interviewed := true,
    endpoints := [1] }

/-- Concrete state for the C6 witness scenario. -/
def c6State : CtrlState :=
  { devices := [c6Device, c6SetDevice], groups := [], interviewsInProgress := [],
    permitJoinTimer := none }

/-- Concrete attribute-report carrying a model id, aimed at the
unset-model-id device, for the C6 witness scenario. -/
def c6ReportPayload : ZclDataPayload :=
  { networkAddress := 4, endpoint := 1,
    frame :=
      { Header := { frameControl := { frameType := FrameType.GLOBAL,
                                      disableDefaultResponse := true },
                    commandIdentifier := 10 },
        ClusterID := 0, Payload := ([] : KeyValue),
        command := { name := "report", ID := 10 },
        attributes := ([("modelId", "lumi.sensor")] : KeyValue) },
    linkquality := 20, groupID := none }

/-- The same report aimed at the device whose model id is already set, for
the C6 witness scenario. -/
def c6SecondPayload : ZclDataPayload :=
  { networkAddress := 5, endpoint := 1,
    frame :=
      { Header := { frameControl := { frameType := FrameType.GLOBAL,
                                      disableDefaultResponse := true },
                    commandIdentifier := 10 },
        ClusterID := 0, Payload := ([] : KeyValue),
        command := { name := "report", ID := 10 },
        attributes := ([("modelId", "lumi.other")] : KeyValue) },
    linkquality := 20, groupID := none }

theorem C6_model_id_backfill_witness :
    ((onZclData c6State c6ReportPayload false).2.filter isSetModelIDWrite =
      [Action.write (DbWrite.setModelID "0xCC" "lumi.sensor")]) ∧
    ((findByIeeeAddr (onZclData c6State c6ReportPayload false).1 "0xCC").map
        DeviceRec.modelID = some (some "lumi.sensor")) ∧
    ((onZclData c6State c6SecondPayload false).2.filter isSetModelIDWrite = []) ∧
    ((findByIeeeAddr (onZclData c6State c6SecondPayload false).1 "0xCD").map
        DeviceRec.modelID = some (some "lumi.first")) :=
  ⟨((C6_model_id_backfill c6State c6ReportPayload false c6Device "attributeReport"
      (ZclFrameConverter.attributeList c6ReportPayload.frame)
      (by decide) (by decide) (by decide)).1 "lumi.sensor"
      (Or.inl rfl) (by decide) (by decide) (by decide)).1,
   ((C6_model_id_backfill c6State c6ReportPayload false c6Device "attributeReport"
      (ZclFrameConverter.attributeList c6ReportPayload.frame)
      (by decide) (by decide) (by decide)).1 "lumi.sensor"
      (Or.inl rfl) (by decide) (by decide) (by decide)).2,
   ((C6_model_id_backfill c6State c6SecondPayload false c6SetDevice "attributeReport"
      (ZclFrameConverter.attributeList c6SecondPayload.frame)
      (by decide) (by decide) (by decide)).2 "lumi.first" (by decide) (by decide)).1,
   ((C6_model_id_backfill c6State c6SecondPayload false c6SetDevice "attributeReport"
      (ZclFrameConverter.attributeList c6SecondPayload.frame)
      (by decide) (by decide) (by decide)).2 "lumi.first" (by decide) (by decide)).2⟩

end Herdsman
